import Mathlib

/-!
Shallow embedding of `src/bot-template/app/__main__.py` — a minimal
aiogram/aiohttp webhook echo bot — together with theorems settling the
specification claims about it.

The module-level configuration reads, the echo handler, the health-check
handler and the startup/shutdown sequence of `main()` are translated into
executable Lean definitions.  External I/O (the aiogram `set_webhook` call
and the aiohttp socket bind) is modelled by a record of outcomes supplied to
the startup function; the sequence of externally visible actions `main()`
performs is recorded as a trace of events, in source order.
-/

/-- Python rendering of an optional string inside an f-string: Python's
`str(None)` is the four-character string `"None"`, and a present string is
rendered verbatim.  This models `f"... {message.text}"` where
`message.text` is `None` for a non-text message. -/
def pyShowOptStr : Option String → String
  | none => "None"
  | some s => s

/-- ASCII whitespace stripped by Python's `int()` before parsing. -/
def isPySpace (c : Char) : Bool :=
  c = ' ' || c = '\t' || c = '\n' || c = '\r' || c = '\x0b' || c = '\x0c'

/-- Digit run of Python's base-10 `int()` grammar after the first digit:
digits, with single underscores allowed only between two digits. -/
def digitChain : List Char → Nat → Option Nat
  | [], acc => some acc
  | '_' :: c :: rest, acc =>
      if c.isDigit then digitChain rest (acc * 10 + (c.toNat - 48)) else none
  | '_' :: [], _ => none
  | c :: rest, acc =>
      if c.isDigit then digitChain rest (acc * 10 + (c.toNat - 48)) else none

/-- A nonempty digit run (no leading underscore), per Python `int()`. -/
def parsePyDigits : List Char → Option Nat
  | [] => none
  | c :: rest => if c.isDigit then digitChain rest (c.toNat - 48) else none

/-- Model of Python's `int(s)` for base 10: strip surrounding whitespace,
optional sign, then digits with optional single underscores between digits.
Returns `none` where Python raises `ValueError`. -/
def pyIntOfString (s : String) : Option Int :=
  let cs := (((s.toList.dropWhile isPySpace).reverse.dropWhile isPySpace)).reverse
  match cs with
  | '+' :: rest => (parsePyDigits rest).map Int.ofNat
  | '-' :: rest => (parsePyDigits rest).map (fun n => -(Int.ofNat n))
  | rest => (parsePyDigits rest).map Int.ofNat

/-- The process environment, as read by `os.getenv` at module load:
each variable is present (`some`) or absent (`none`). -/
structure Env where
  botToken : Option String
  botPort : Option String
  webhookUrl : Option String
  botName : Option String
deriving DecidableEq

/-- Errors raised during module-level initialization: `valueError` from
`int(os.getenv("BOT_PORT", "8080"))` (line 10), `tokenValidationError`
from `Bot(token=BOT_TOKEN)` (line 19). -/
inductive LoadError where
  | valueError
  | tokenValidationError
deriving DecidableEq

/-- Module-level state after a successful load of `app/__main__.py`:
the four configuration values, with defaults applied. -/
structure ModuleState where
  botToken : String
  botPort : Int
  webhookUrl : Option String
  botName : String
deriving DecidableEq

/-- Module-level initialization of `app/__main__.py`, in source order:
`BOT_PORT = int(os.getenv("BOT_PORT", "8080"))` runs at line 10 and raises
`ValueError` on an unparsable string, before `bot = Bot(token=BOT_TOKEN)`
at line 19.  The token check itself is Modelled from the spec: the aiogram
`Bot` constructor is an external collaborator not present in the
repository; the spec states the process "must fail fast if absent", which
matches aiogram's token validation raising when the token is `None`. -/
def loadModule (env : Env) : Except LoadError ModuleState :=
  match pyIntOfString (env.botPort.getD "8080") with
  | none => .error .valueError
  | some port =>
    match env.botToken with
    | none => .error .tokenValidationError
    | some tok =>
      .ok { botToken := tok, botPort := port,
            webhookUrl := env.webhookUrl, botName := env.botName.getD "bot" }

/-- An incoming chat message as delivered by the platform adapter:
`text` is `none` for a non-text message. Sender metadata is unused. -/
structure IncomingMessage where
  chatId : Int
  text : Option String
  senderMeta : String
deriving DecidableEq

/-- An outgoing reply: `message.answer(text)` sends `text` to the chat the
message came from. -/
structure OutgoingReply where
  chatId : Int
  text : String
deriving DecidableEq

/-- The fixed greeting template of the echo handler, as a function of the
configured bot name: the literal text around `{BOT_NAME}` in
`f"🤖 Hello 111 from {BOT_NAME}! You said: {message.text}"`. -/
def greetingTemplate (botName : String) : String :=
  "🤖 Hello 111 from " ++ botName ++ "! You said: "

/-- The reply text built by `echo_handler`:
`f"🤖 Hello 111 from {BOT_NAME}! You said: {message.text}"`. -/
def echoReplyText (botName : String) (text : Option String) : String :=
  "🤖 Hello 111 from " ++ botName ++ "! You said: " ++ pyShowOptStr text

/-- `echo_handler` (lines 22-25): for one incoming message it performs
exactly one `message.answer(...)` call, modelled as the list of outbound
sends it issues. -/
def echo_handler (botName : String) (m : IncomingMessage) : List OutgoingReply :=
  [{ chatId := m.chatId, text := echoReplyText botName m.text }]

/-- `echo_handler` with an explicit ambient state threaded through, to
express that the handler neither reads nor writes any shared state beyond
the configured bot name and the message: the state `s` is returned
untouched and the sends do not depend on it. -/
def echoHandlerSt {σ : Type} (botName : String) (m : IncomingMessage) (s : σ) :
    List OutgoingReply × σ :=
  (echo_handler botName m, s)

/-- An HTTP request, as far as the handlers look at it. -/
structure HttpRequest where
  method : String
  path : String
deriving DecidableEq

/-- An HTTP response: aiohttp's `web.Response(text="OK")` has default
status 200 and body `"OK"`. -/
structure HttpResponse where
  status : Nat
  body : String
deriving DecidableEq

/-- `health_check` (lines 27-29): returns `web.Response(text="OK")`.  An
arbitrary ambient bot state `s` is threaded through explicitly to express
that the handler has no side effect on it and no dependency on it. -/
def health_check {σ : Type} (s : σ) (_ : HttpRequest) : HttpResponse × σ :=
  ({ status := 200, body := "OK" }, s)

/-- Externally visible actions of `main()` (lines 31-63), in source order. -/
inductive Event where
  | addHealthRoute
  | registerWebhookHandler
  | setupApplication
  | setWebhook (url : String) (dropPendingUpdates : Bool)
  | runnerSetup
  | siteStart (host : String) (port : Int)
  | runForever
  | sessionClose
deriving DecidableEq

/-- Outcomes of the two fallible external calls `main()` makes:
`bot.set_webhook(...)` (line 48) and the socket bind in `site.start()`
(line 55). -/
structure ExternalOutcomes where
  setWebhookOk : Bool
  bindOk : Bool
deriving DecidableEq

/-- How the process run ends: `ranForever` means startup succeeded and the
process blocks on `await asyncio.Future()` until externally terminated;
`exited code` means an unhandled exception escaped `asyncio.run(main())`
and the interpreter exited with `code`. -/
inductive ProcResult where
  | ranForever
  | exited (code : Nat)
deriving DecidableEq

/-- Server-start phase of `main()` (lines 52-63): `runner.setup()`, then
`site.start()` binds `0.0.0.0:BOT_PORT`.  On bind failure the exception
propagates — the `try/finally` at lines 58-62 has not been entered, so
`bot.session.close()` does not run.  On success the process blocks forever;
when it is eventually terminated the `finally` closes the session. -/
def bindPhase (st : ModuleState) (ext : ExternalOutcomes) (pre : List Event) :
    List Event × ProcResult :=
  let pre := pre ++ [Event.runnerSetup]
  if ext.bindOk then
    (pre ++ [Event.siteStart "0.0.0.0" st.botPort, Event.runForever,
             Event.sessionClose], ProcResult.ranForever)
  else (pre, ProcResult.exited 1)

/-- `main()` (lines 31-63): add the `/health` route, register the webhook
request handler on `/webhook`, `setup_application`, then — only if
`WEBHOOK_URL` is set — call `bot.set_webhook(url=WEBHOOK_URL,
drop_pending_updates=True)` (lines 47-49); a failure there propagates and
ends the process with exit code 1 before any bind.  Then the server-start
phase. -/
def mainTrace (st : ModuleState) (ext : ExternalOutcomes) :
    List Event × ProcResult :=
  let pre := [Event.addHealthRoute, Event.registerWebhookHandler,
              Event.setupApplication]
  match st.webhookUrl with
  | none => bindPhase st ext pre
  | some url =>
    let pre := pre ++ [Event.setWebhook url true]
    if ext.setWebhookOk then bindPhase st ext pre
    else (pre, ProcResult.exited 1)

/-- The whole process: module-level load (which may raise before `main` is
ever entered — an exception at import time exits the interpreter with
status 1 and an empty action trace), then `asyncio.run(main())`. -/
def runProcess (env : Env) (ext : ExternalOutcomes) :
    List Event × ProcResult :=
  match loadModule env with
  | .error _ => ([], ProcResult.exited 1)
  | .ok st => mainTrace st ext

/-- Recognizes the webhook-registration call in a trace. -/
def isSetWebhook : Event → Bool
  | .setWebhook _ _ => true
  | _ => false

/-- Recognizes the port-bind action in a trace. -/
def isBind : Event → Bool
  | .siteStart _ _ => true
  | _ => false

/-- Index of the first event satisfying `p`, if any. -/
def firstIdxAux (p : Event → Bool) : List Event → Option Nat
  | [] => none
  | e :: rest => if p e then some 0 else (firstIdxAux p rest).map (· + 1)

/-- Index of the first port bind in a trace, if any. -/
def firstBindIdx (t : List Event) : Option Nat := firstIdxAux isBind t

/-- Index of the first webhook registration in a trace, if any. -/
def firstSetWebhookIdx (t : List Event) : Option Nat := firstIdxAux isSetWebhook t

/-- Whether a trace binds the port strictly before the first
webhook-registration call (and both occur). -/
def bindBeforeSetWebhook (t : List Event) : Bool :=
  match firstBindIdx t, firstSetWebhookIdx t with
  | some i, some j => i < j
  | _, _ => false

/-- A representative successfully loaded module state with a configured
webhook URL, for concrete evaluation. -/
def exampleState : ModuleState :=
  { botToken := "123:abc", botPort := 8080,
    webhookUrl := some "https://example.com/webhook", botName := "bot" }

/-- Both external calls succeed. -/
def extAllOk : ExternalOutcomes := { setWebhookOk := true, bindOk := true }

/-- The webhook-registration call fails; the bind would have succeeded. -/
def extWebhookFail : ExternalOutcomes := { setWebhookOk := false, bindOk := true }

/-- A representative module state with no webhook URL configured. -/
def exampleStateNoUrl : ModuleState :=
  { botToken := "123:abc", botPort := 8080, webhookUrl := none, botName := "bot" }

/-- An environment with `BOT_TOKEN` absent. -/
def envNoToken : Env :=
  { botToken := none, botPort := none, webhookUrl := none, botName := none }

/-- A fully valid environment with a webhook URL configured. -/
def envOk : Env :=
  { botToken := some "123:abc", botPort := none,
    webhookUrl := some "https://example.com/webhook", botName := none }

/-- A concrete text message, for concrete evaluation. -/
def msgA : IncomingMessage := { chatId := 1, text := some "hi", senderMeta := "alice" }

/-- A second text message with the same text but different chat and sender. -/
def msgB : IncomingMessage := { chatId := 2, text := some "hi", senderMeta := "carol" }

/-- Claim C1: for every non-empty input text `T` and configured bot name
`N`, the echo handler's output text is the fixed greeting template
containing `N`, concatenated with the literal input text `T`; hence the
output contains both `N` and `T` verbatim. -/
theorem echo_output_template_concat (N T : String) (_h : T ≠ "") :
    echoReplyText N (some T) = greetingTemplate N ++ T ∧
    (∃ u v, echoReplyText N (some T) = u ++ N ++ v) ∧
    (∃ u, echoReplyText N (some T) = u ++ T) := by
  refine ⟨rfl, ⟨"🤖 Hello 111 from ", "! You said: " ++ T, ?_⟩,
    ⟨greetingTemplate N, rfl⟩⟩
  show ("🤖 Hello 111 from " ++ N ++ "! You said: ") ++ T
      = ("🤖 Hello 111 from " ++ N) ++ ("! You said: " ++ T)
  rw [String.append_assoc]

/-- Witness for C1 at `N = "bot"`, `T = "hi"`. -/
theorem echo_output_template_concat_app :
    echoReplyText "bot" (some "hi") = greetingTemplate "bot" ++ "hi" ∧
    (∃ u v, echoReplyText "bot" (some "hi") = u ++ "bot" ++ v) ∧
    (∃ u, echoReplyText "bot" (some "hi") = u ++ "hi") :=
  echo_output_template_concat "bot" "hi" (by decide)

/-- Claim C2 counterexample: for a non-text message (`text` absent) the
echoed text portion is not the empty string — the output is not the
greeting template followed by nothing. -/
theorem echo_absent_text_not_empty :
    ¬ (echoReplyText "bot" none = greetingTemplate "bot" ++ "") := by decide

/-- Claim C2 amended: the handler does not fail on empty or absent text;
for empty text it echoes the empty string, but for absent text it echoes
the four-character string `"None"` (Python's rendering of the absent
value) in place of the input text. -/
theorem echo_absent_text_renders_none_string (N : String) :
    echoReplyText N none = greetingTemplate N ++ "None" ∧
    echoReplyText N (some "") = greetingTemplate N ++ "" :=
  ⟨rfl, rfl⟩

/-- Claim C3: every `GET /health` request returns status 200 with body
`"OK"`; the ambient bot state is returned unchanged (no side effects) and
the response does not depend on it. -/
theorem health_check_always_ok {σ : Type} (s : σ) (r : HttpRequest) :
    health_check s r = ({ status := 200, body := "OK" }, s) := rfl

/-- Claim C8: the echo handler issues exactly one outbound reply per
incoming message. -/
theorem one_reply_per_message (N : String) (m : IncomingMessage) :
    (echo_handler N m).length = 1 := rfl

/-- Claim C9: the echo handler is a deterministic pure function of the
pair (bot name, message text): two invocations agreeing on those produce
equal output texts regardless of chat id, sender metadata or ambient
state, and the ambient state is returned unmutated. -/
theorem echo_handler_deterministic_pure {σ σ' : Type} (N N' : String)
    (m m' : IncomingMessage) (s : σ) (s' : σ')
    (hN : N = N') (hT : m.text = m'.text) :
    (echoHandlerSt N m s).1.map OutgoingReply.text
      = (echoHandlerSt N' m' s').1.map OutgoingReply.text ∧
    (echoHandlerSt N m s).2 = s := by
  subst hN
  refine ⟨?_, rfl⟩
  simp [echoHandlerSt, echo_handler, echoReplyText, hT]

/-- Witness for C9: same name and text, different chat, sender and state. -/
theorem echo_handler_deterministic_pure_app :
    (echoHandlerSt "bot" msgA (0 : Nat)).1.map OutgoingReply.text
      = (echoHandlerSt "bot" msgB "other").1.map OutgoingReply.text ∧
    (echoHandlerSt "bot" msgA (0 : Nat)).2 = 0 :=
  echo_handler_deterministic_pure "bot" "bot" msgA msgB 0 "other" rfl rfl

/-- Claim C10: an unparsable `BOT_PORT` string raises `ValueError` at
module load, before the bot client is constructed (the error is
`valueError` even when the token is also absent, since line 10 precedes
line 19); an unset `BOT_PORT` parses as 8080, and an unset `BOT_NAME`
defaults to `"bot"`. -/
theorem bot_port_parsed_at_module_load (env : Env) (t : String) :
    (∀ s, env.botPort = some s → pyIntOfString s = none →
        loadModule env = .error .valueError) ∧
    (env.botPort = none → env.botToken = some t →
        ∃ st, loadModule env = .ok st ∧ st.botPort = 8080 ∧
          (env.botName = none → st.botName = "bot")) := by
  constructor
  · intro s hs hparse
    unfold loadModule
    rw [hs, Option.getD_some, hparse]
  · intro hp ht
    refine ⟨{ botToken := t, botPort := 8080, webhookUrl := env.webhookUrl,
              botName := env.botName.getD "bot" }, ?_, rfl, ?_⟩
    · unfold loadModule
      rw [hp, Option.getD_none, ht]
      rfl
    · intro hn
      show env.botName.getD "bot" = "bot"
      rw [hn, Option.getD_none]

/-- Witness for C10: `BOT_PORT="80a"` is rejected with `ValueError` before
the token (also absent here) is looked at; with `BOT_PORT` and `BOT_NAME`
unset the defaults 8080 and `"bot"` apply. -/
theorem bot_port_parsed_at_module_load_app :
    loadModule { botToken := none, botPort := some "80a",
                 webhookUrl := none, botName := none } = .error .valueError ∧
    ∃ st, loadModule { botToken := some "123:abc", botPort := none,
                       webhookUrl := none, botName := none } = .ok st ∧
          st.botPort = 8080 ∧ st.botName = "bot" := by
  constructor
  · exact (bot_port_parsed_at_module_load
      ⟨none, some "80a", none, none⟩ "x").1 "80a" rfl (by decide)
  · obtain ⟨st, h1, h2, h3⟩ := (bot_port_parsed_at_module_load
      ⟨some "123:abc", none, none, none⟩ "123:abc").2 rfl rfl
    exact ⟨st, h1, h2, h3 rfl⟩

/-- Claim C4 counterexample: on a successful startup with a webhook URL
configured, the code does not bind before registering the webhook — the
registration call (index 3 of the trace) precedes the bind (index 5),
because lines 47-49 run before lines 52-55. -/
theorem webhook_set_before_bind_cex :
    bindBeforeSetWebhook (mainTrace exampleState extAllOk).1 = false ∧
    firstSetWebhookIdx (mainTrace exampleState extAllOk).1 = some 3 ∧
    firstBindIdx (mainTrace exampleState extAllOk).1 = some 5 := by decide

/-- Claim C4 amended: when a webhook URL is configured, startup registers
the URL with the platform with `drop_pending_updates=True` FIRST, and only
afterwards binds the port: the first registration event strictly precedes
the first bind event in the trace. -/
theorem webhook_set_precedes_bind (st : ModuleState) (ext : ExternalOutcomes)
    (u : String) (hu : st.webhookUrl = some u)
    (hw : ext.setWebhookOk = true) (hb : ext.bindOk = true) :
    ∃ i j, firstSetWebhookIdx (mainTrace st ext).1 = some i ∧
           firstBindIdx (mainTrace st ext).1 = some j ∧ i < j ∧
           Event.setWebhook u true ∈ (mainTrace st ext).1 := by
  have htr : (mainTrace st ext).1 =
      [Event.addHealthRoute, Event.registerWebhookHandler,
       Event.setupApplication, Event.setWebhook u true, Event.runnerSetup,
       Event.siteStart "0.0.0.0" st.botPort, Event.runForever,
       Event.sessionClose] := by
    simp [mainTrace, bindPhase, hu, hw, hb]
  refine ⟨3, 5, ?_, ?_, by omega, ?_⟩ <;> rw [htr]
  · simp [firstSetWebhookIdx, firstIdxAux, isSetWebhook]
  · simp [firstBindIdx, firstIdxAux, isBind]
  · simp

/-- Witness for C4 amended, on the example state with both calls
succeeding. -/
theorem webhook_set_precedes_bind_app :
    ∃ i j, firstSetWebhookIdx (mainTrace exampleState extAllOk).1 = some i ∧
           firstBindIdx (mainTrace exampleState extAllOk).1 = some j ∧ i < j ∧
           Event.setWebhook "https://example.com/webhook" true
             ∈ (mainTrace exampleState extAllOk).1 :=
  webhook_set_precedes_bind exampleState extAllOk
    "https://example.com/webhook" rfl rfl rfl

/-- Claim C5: when `WEBHOOK_URL` is unset, startup performs no
webhook-registration call, still registers the `/health` route, and still
binds its port. -/
theorem no_webhook_url_skips_registration (st : ModuleState)
    (ext : ExternalOutcomes) (h : st.webhookUrl = none)
    (hb : ext.bindOk = true) :
    (∀ e ∈ (mainTrace st ext).1, isSetWebhook e = false) ∧
    Event.addHealthRoute ∈ (mainTrace st ext).1 ∧
    Event.siteStart "0.0.0.0" st.botPort ∈ (mainTrace st ext).1 := by
  have htr : (mainTrace st ext).1 =
      [Event.addHealthRoute, Event.registerWebhookHandler,
       Event.setupApplication, Event.runnerSetup,
       Event.siteStart "0.0.0.0" st.botPort, Event.runForever,
       Event.sessionClose] := by
    simp [mainTrace, bindPhase, h, hb]
  rw [htr]
  refine ⟨?_, by simp, by simp⟩
  intro e he
  fin_cases he <;> rfl

/-- Witness for C5 on a concrete state with no webhook URL. -/
theorem no_webhook_url_skips_registration_app :
    (∀ e ∈ (mainTrace exampleStateNoUrl extAllOk).1, isSetWebhook e = false) ∧
    Event.addHealthRoute ∈ (mainTrace exampleStateNoUrl extAllOk).1 ∧
    Event.siteStart "0.0.0.0" exampleStateNoUrl.botPort
      ∈ (mainTrace exampleStateNoUrl extAllOk).1 :=
  no_webhook_url_skips_registration exampleStateNoUrl extAllOk rfl rfl

/-- Claim C6: with `BOT_TOKEN` absent the process exits with status 1
before performing any action; and when the webhook-registration call
fails, the process exits with status 1 without ever binding or serving,
having attempted the registration exactly once (nothing is retried). -/
theorem startup_failures_fatal (env : Env) (ext : ExternalOutcomes)
    (u : String) :
    (env.botToken = none → runProcess env ext = ([], ProcResult.exited 1)) ∧
    (∀ st, loadModule env = .ok st → st.webhookUrl = some u →
        ext.setWebhookOk = false →
        (runProcess env ext).2 = ProcResult.exited 1 ∧
        (∀ e ∈ (runProcess env ext).1, isBind e = false) ∧
        Event.runForever ∉ (runProcess env ext).1 ∧
        (runProcess env ext).1.countP isSetWebhook = 1) := by
  constructor
  · intro h
    unfold runProcess loadModule
    rw [h]
    cases pyIntOfString (env.botPort.getD "8080") <;> rfl
  · intro st hok hu hw
    have htr : runProcess env ext =
        ([Event.addHealthRoute, Event.registerWebhookHandler,
          Event.setupApplication, Event.setWebhook u true],
         ProcResult.exited 1) := by
      unfold runProcess
      rw [hok]
      simp [mainTrace, hu, hw]
    rw [htr]
    refine ⟨rfl, ?_, by simp, ?_⟩
    · intro e he
      fin_cases he <;> rfl
    · simp [List.countP_cons, isSetWebhook]

/-- Witness for C6: an environment with no token exits at once; a valid
environment whose registration call fails exits before binding, with
exactly one registration attempt. -/
theorem startup_failures_fatal_app :
    runProcess envNoToken extAllOk = ([], ProcResult.exited 1) ∧
    ((runProcess envOk extWebhookFail).2 = ProcResult.exited 1 ∧
     (∀ e ∈ (runProcess envOk extWebhookFail).1, isBind e = false) ∧
     Event.runForever ∉ (runProcess envOk extWebhookFail).1 ∧
     (runProcess envOk extWebhookFail).1.countP isSetWebhook = 1) := by
  constructor
  · exact (startup_failures_fatal envNoToken extAllOk "x").1 rfl
  · exact (startup_failures_fatal envOk extWebhookFail
      "https://example.com/webhook").2
      { botToken := "123:abc", botPort := 8080,
        webhookUrl := some "https://example.com/webhook", botName := "bot" }
      rfl rfl rfl

/-- Claim C7 counterexample: when the webhook-registration call raises
during startup (after the bot and its session were constructed at module
load), the process terminates without ever closing the session — the
`try/finally` that closes it is only entered after a fully successful
startup. -/
theorem session_not_closed_on_startup_failure :
    Event.sessionClose ∉ (mainTrace exampleState extWebhookFail).1 ∧
    (mainTrace exampleState extWebhookFail).2 = ProcResult.exited 1 := by
  decide

/-- Claim C7 amended: the session is released only on exit paths that
reach the run-forever await, i.e. after a fully successful startup
(webhook registration, if any, and bind both succeeded); on such paths the
trace does contain the session-close action. -/
theorem session_closed_after_full_startup (st : ModuleState)
    (ext : ExternalOutcomes)
    (hstart : st.webhookUrl = none ∨ ext.setWebhookOk = true)
    (hb : ext.bindOk = true) :
    Event.sessionClose ∈ (mainTrace st ext).1 ∧
    (mainTrace st ext).2 = ProcResult.ranForever := by
  cases hu : st.webhookUrl with
  | none => simp [mainTrace, bindPhase, hu, hb]
  | some u =>
      rcases hstart with h | h
      · rw [hu] at h
        exact Option.noConfusion h
      · simp [mainTrace, bindPhase, hu, h, hb]

/-- Witness for C7 amended: a fully successful startup from the example
state closes the session. -/
theorem session_closed_after_full_startup_app :
    Event.sessionClose ∈ (mainTrace exampleState extAllOk).1 ∧
    (mainTrace exampleState extAllOk).2 = ProcResult.ranForever :=
  session_closed_after_full_startup exampleState extAllOk (Or.inr rfl) rfl
